import Mathlib

/-!
Verification of the cars_and_peds tracking repository.

This file gives a shallow embedding, in Lean 4, of the control flow and the
pure computations of CarPedestrianTracker (src/cars_and_peds.py), of the
AdvancedTracker extension (src/examples/advanced_usage.py), and of the main
entry point, and proves or refutes the frozen specification claims about
them.  Machine arithmetic on pixel coordinates is exact integer arithmetic
in the source (Python ints), so Int is used directly; the only floating
point operation that matters to a claim, np.sqrt compared against the
literal 100, is embedded as the equivalent exact comparison of the squared
distance against 10000 (sqrt is monotone and 100 * 100 = 10000 is exactly
representable, so the two tests agree on every integer input).
-/

namespace CarsPeds

/-- A detection bounding box (x, y, w, h), as produced by detectMultiScale. -/
abbrev Box := Int × Int × Int × Int

/-- A BGR color triple, as used by the cv2 drawing calls in the source. -/
abbrev Color := Nat × Nat × Nat

/-- The mutable statistics attributes of CarPedestrianTracker
(frame_count, total_cars, total_pedestrians), initialised to zero in
the constructor. -/
structure Stats where
  frameCount : Nat
  totalCars : Nat
  totalPeds : Nat
deriving Repr, DecidableEq

/-- The statistics update done at the top of each successful loop
iteration of process_video: frame_count += 1, total_cars += len(cars),
total_pedestrians += len(pedestrians). -/
def tickStats (s : Stats) (cars peds : Nat) : Stats :=
  ⟨s.frameCount + 1, s.totalCars + cars, s.totalPeds + peds⟩

/-- Why a cap.read() call returned ret = False.  OpenCV reports a clean
end of a file stream and a mid-stream decode failure through the same
boolean; the cause is NOT observable by the caller, and the loop embedding
below accordingly never inspects this tag. -/
inductive ReadCause
  | fileEnd
  | midFailure
deriving Repr, DecidableEq

/-- One iteration worth of external input to the process_video loop:
either a successfully read frame (with the number of car and pedestrian
detections the cascades produce on it and the raw cv2.waitKey code), a
read that returned ret = False, a KeyboardInterrupt delivered at the top
of the iteration, or any other exception raised inside the loop body. -/
inductive TickInput
  | frame (cars peds : Nat) (rawKey : Nat)
  | readFalse (cause : ReadCause)
  | interrupt
  | bodyError
deriving Repr, DecidableEq

/-- How a run of process_video ended. -/
inductive Outcome
  | endOfStream
  | quit
  | interrupted
  | errored
  | sourceUnavailable
deriving Repr, DecidableEq

/-- The action selected by the key-handling if/elif chain of
process_video. -/
inductive UserAction
  | quit
  | screenshot
  | reset
  | none
deriving Repr, DecidableEq

/-- The key dispatch of process_video, applied to key = waitKey and 0xFF:
quit on the codes of k, K, q, Q (107, 75, 113, 81); screenshot on s, S
(115, 83); reset on r, R (114, 82); otherwise no action. -/
def keyAction (key : Nat) : UserAction :=
  if key = 107 ∨ key = 75 ∨ key = 113 ∨ key = 81 then .quit
  else if key = 115 ∨ key = 83 then .screenshot
  else if key = 114 ∨ key = 82 then .reset
  else .none

/-- The observable result of the while loop of process_video:
the final statistics attributes, how the loop exited, the frame numbers
stamped into the screenshot files that were written (in order), the
number of frames handed to writer.write when a writer exists, and the
number of loop iterations that processed a frame. -/
structure LoopResult where
  stats : Stats
  outcome : Outcome
  screenshots : List Nat
  framesWritten : Nat
  framesProcessed : Nat
deriving Repr, DecidableEq

/-- The while-True loop of process_video, driven by a finite list of tick
inputs; an exhausted input list models the point where a file source
starts returning ret = False, hence ends like a clean end of stream.
Per iteration, in source order: read (break on ret = False), increment
statistics, detect, draw, write, then the key chain — quit breaks,
screenshot records the current frame_count, reset zeroes the three
statistics attributes. -/
def loopRun : Stats → List TickInput → LoopResult
  | s, [] => ⟨s, .endOfStream, [], 0, 0⟩
  | s, .readFalse _ :: _ => ⟨s, .endOfStream, [], 0, 0⟩
  | s, .interrupt :: _ => ⟨s, .interrupted, [], 0, 0⟩
  | s, .bodyError :: _ => ⟨s, .errored, [], 0, 0⟩
  | s, .frame cars peds rawKey :: rest =>
    let s1 := tickStats s cars peds
    match keyAction (rawKey % 256) with
    | .quit => ⟨s1, .quit, [], 1, 1⟩
    | .screenshot =>
      let r := loopRun s1 rest
      ⟨r.stats, r.outcome, s1.frameCount :: r.screenshots,
        r.framesWritten + 1, r.framesProcessed + 1⟩
    | .reset =>
      let r := loopRun ⟨0, 0, 0⟩ rest
      ⟨r.stats, r.outcome, r.screenshots, r.framesWritten + 1, r.framesProcessed + 1⟩
    | .none =>
      let r := loopRun s1 rest
      ⟨r.stats, r.outcome, r.screenshots, r.framesWritten + 1, r.framesProcessed + 1⟩

/-- The observable result of a whole process_video call, adding to the
loop result the resource bookkeeping of its try/finally: how many times
cap.release(), writer.release() and cv2.destroyAllWindows() ran, whether
a writer was ever written to, and whether the processing loop was
entered at all. -/
structure RunResult where
  stats : Stats
  outcome : Outcome
  screenshots : List Nat
  writerWrites : Nat
  capReleases : Nat
  writerReleases : Nat
  windowsDestroyed : Nat
  loopEntered : Bool
deriving Repr, DecidableEq

/-- process_video: if cap.isOpened() is false the function logs and
returns at once — before the loop, and notably without releasing the
capture, since the try/finally has not been entered yet.  Otherwise the
loop runs and the finally block releases the capture, releases the
writer when one was opened, and destroys the display windows, exactly
once on every path out of the loop (break on end of stream, break on
quit, caught KeyboardInterrupt, or a propagating exception). -/
def processVideo (s0 : Stats) (sourceOpens hasWriter : Bool) (trace : List TickInput) :
    RunResult :=
  if sourceOpens then
    let r := loopRun s0 trace
    ⟨r.stats, r.outcome, r.screenshots,
      if hasWriter then r.framesWritten else 0,
      1, if hasWriter then 1 else 0, 1, true⟩
  else
    ⟨s0, .sourceUnavailable, [], 0, 0, 0, 0, false⟩

/-- The outcome of loading one cascade file in the tracker constructor:
ok, or FileNotFoundError when the path does not exist, or RuntimeError
when cv2 loads it empty. -/
inductive LoadResult
  | ok
  | fileMissing
  | loadFailed
deriving Repr, DecidableEq

/-- The main() entry point: constructing the tracker loads the car
cascade then the pedestrian cascade, and any FileNotFoundError,
RuntimeError or other Exception — including one escaping the processing
loop — is caught and turned into sys.exit(1); every other path falls off
the end of main with exit code 0. -/
def mainExit (carLoad pedLoad : LoadResult) (sourceOpens hasWriter : Bool)
    (trace : List TickInput) : Nat :=
  match carLoad, pedLoad with
  | .ok, .ok =>
    let r := processVideo ⟨0, 0, 0⟩ sourceOpens hasWriter trace
    if r.outcome = .errored then 1 else 0
  | _, _ => 1

/-- Blue, the color of the main car rectangle and label (BGR). -/
def carColor : Color := (255, 0, 0)

/-- Red, the car_shadow color used for the shadow-effect rectangle (BGR). -/
def carShadowColor : Color := (0, 0, 255)

/-- Yellow, the pedestrian rectangle and label color (BGR). -/
def pedColor : Color := (0, 255, 255)

/-- One cv2 drawing call issued by draw_detections or
draw_detections_with_tracking: a rectangle from one corner to the other
in a color with a thickness, or a putText call. -/
inductive DrawOp
  | rect (x1 y1 x2 y2 : Int) (color : Color) (thickness : Nat)
  | text (s : String) (x y : Int) (color : Color)
deriving Repr, DecidableEq

/-- The color argument of a drawing call. -/
def DrawOp.color : DrawOp → Color
  | .rect _ _ _ _ c _ => c
  | .text _ _ _ c => c

/-- The shadow-effect rectangle drawn first for a car box (x, y, w, h):
corners (x+1, y+1) and (x+w, y+h) in the car_shadow color, thickness 2. -/
def shadowOp : Box → DrawOp
  | (x, y, w, h) => .rect (x + 1) (y + 1) (x + w) (y + h) carShadowColor 2

/-- The main rectangle drawn for a car box: corners (x, y) and
(x+w, y+h) in the car color, thickness 2. -/
def mainCarOp : Box → DrawOp
  | (x, y, w, h) => .rect x y (x + w) (y + h) carColor 2

/-- The Car label drawn at (x, y-10) in the car color. -/
def carLabelOp : Box → DrawOp
  | (x, y, _, _) => .text ("Car") x (y - 10) carColor

/-- The three drawing calls the car loop of draw_detections issues per
box, in source order: shadow rectangle, main rectangle, label. -/
def drawCarOps (b : Box) : List DrawOp :=
  [shadowOp b, mainCarOp b, carLabelOp b]

/-- The two drawing calls the pedestrian loop of draw_detections issues
per box: rectangle then label, both in the pedestrian color. -/
def drawPedOps : Box → List DrawOp
  | (x, y, w, h) =>
    [.rect x y (x + w) (y + h) pedColor 2,
     .text ("Pedestrian") x (y - 10) pedColor]

/-- draw_detections: all car boxes are drawn first (each contributing
its three calls in order), then all pedestrian boxes. -/
def drawDetections (cars peds : List Box) : List DrawOp :=
  cars.flatMap drawCarOps ++ peds.flatMap drawPedOps

/-- The squared Euclidean distance between the (x, y) corners of a
current detection and one previous detection, as accumulated by the
np.sqrt distance loop of draw_detections_with_tracking (the source
compares sqrt of this against 100; the embedding compares it against
10000, which is equivalent on integers). -/
def cornerSqDist (x y px py : Int) : Int :=
  (x - px) ^ 2 + (y - py) ^ 2

/-- One pass of the min_dist loop of draw_detections_with_tracking:
replace the running minimum (none standing for the initial infinity)
whenever the distance to the (px, py) corner of the previous box pb is
strictly smaller. -/
def minStep (x y : Int) (acc : Option Int) (pb : Box) : Option Int :=
  let d := cornerSqDist x y pb.1 pb.2.1
  match acc with
  | Option.none => some d
  | some m => if d < m then some d else some m

/-- The min_dist loop of draw_detections_with_tracking: min_dist starts
at infinity (none) and is replaced whenever a strictly smaller distance
to a previous car box is seen. -/
def minSqDist (x y : Int) (prevCars : List Box) : Option Int :=
  prevCars.foldl (minStep x y) Option.none

/-- Whether the Moving indicator is drawn for a current car box at
(x, y): true exactly when prev_cars is nonempty and the minimum corner
distance is below 100 (squared below 10000). -/
def movingIndicator (x y : Int) (prevCars : List Box) : Bool :=
  match minSqDist x y prevCars with
  | Option.none => false
  | some m => decide (m < 10000)

/-- draw_detections_with_tracking: the standard draw_detections calls,
followed — when the detection history holds at least two entries, so a
previous-frame car list exists — by a Moving label at (x, y-30) for
each current car box whose moving indicator holds.  Pedestrian boxes
are never associated. -/
def drawDetectionsWithTracking (cars peds : List Box) (prevCars : Option (List Box)) :
    List DrawOp :=
  drawDetections cars peds ++
    match prevCars with
    | Option.none => []
    | some pc =>
      cars.flatMap fun b =>
        match b with
        | (x, y, _, _) =>
          if movingIndicator x y pc then [.text ("Moving") x (y - 30) (0, 255, 0)]
          else []

/-- Modelled from the words of the claim for comparison with the code:
a current box matches the previous tick when the Euclidean distance
between box CENTROIDS, not corners, is below 100.  Stated over doubled
coordinates to stay in integers: the centroid of (x, y, w, h) doubled is
(2x+w, 2y+h), and a centroid distance below 100 is a doubled squared
distance below 40000. -/
def claimedCentroidMatch (b : Box) (prevCars : List Box) : Bool :=
  match b with
  | (x, y, w, h) =>
    prevCars.any fun pb =>
      match pb with
      | (px, py, pw, ph) =>
        decide ((2 * x + w - (2 * px + pw)) ^ 2 + (2 * y + h - (2 * py + ph)) ^ 2 < 40000)

/-- An abstract frame handle; frames are left abstract in the pure core, and
the external cascade detectors are modelled as functions on them. -/
abbrev Frame := Nat

/-- detect_objects: converts the frame to grayscale and runs the two
cascade detectors on the grayscale image, returning the pair of
detection lists.  The grayscale conversion and the two detectMultiScale
calls are external collaborators, passed in as functions. -/
def detectObjects (toGray : Frame → Frame) (carDet pedDet : Frame → List Box)
    (frame : Frame) : List Box × List Box :=
  (carDet (toGray frame), pedDet (toGray frame))

/-- The stats_text list built by add_statistics_overlay, verbatim from
the source: the Cars and Pedestrians counters each come from a fresh
detect_objects call on the frame being annotated — not from any passed
detections or statistics snapshot. -/
def statsText (toGray : Frame → Frame) (carDet pedDet : Frame → List Box)
    (frame : Frame) (frameCount : Nat) : List String :=
  ["Frame: " ++ toString frameCount,
   "Cars: " ++ toString (detectObjects toGray carDet pedDet frame).1.length,
   "Pedestrians: " ++ toString (detectObjects toGray carDet pedDet frame).2.length,
   "",
   "Controls:",
   "K/Q - Quit",
   "S - Save screenshot",
   "R - Reset statistics"]

/-- One cv2 call issued while compositing the statistics overlay: the
filled background rectangle on the copy, the addWeighted alpha blend
(weights as exact rationals), or a putText call. -/
inductive OverlayOp
  | fillRect (x1 y1 x2 y2 : Int) (color : Color)
  | blend (overlayWeight frameWeight : ℚ)
  | putText (s : String) (x y : Int)
deriving Repr, DecidableEq

/-- The text loop of add_statistics_overlay: walks the lines keeping a
y offset that starts at 30 and advances by 20 per line, drawing only
the nonempty lines. -/
def drawTextLines : List String → Int → List OverlayOp
  | [], _ => []
  | t :: ts, y =>
    (if t = "" then [] else [OverlayOp.putText t 20 y]) ++ drawTextLines ts (y + 20)

/-- add_statistics_overlay as the sequence of cv2 calls it issues: the
black background rectangle from (10, 10) to (250, 150) on the overlay
copy, the 0.7 / 0.3 alpha blend back onto the frame, then the text
lines.  Its only inputs are the frame and the frame_count attribute of
the tracker (plus the externally loaded detectors it re-invokes). -/
def addStatisticsOverlay (toGray : Frame → Frame) (carDet pedDet : Frame → List Box)
    (frame : Frame) (frameCount : Nat) : List OverlayOp :=
  [OverlayOp.fillRect 10 10 250 150 (0, 0, 0),
   OverlayOp.blend (7 / 10) (3 / 10)] ++
    drawTextLines (statsText toGray carDet pedDet frame frameCount) 30

/-- The text content actually rendered into the panel, in order. -/
def panelTexts (ops : List OverlayOp) : List String :=
  ops.filterMap fun op =>
    match op with
    | OverlayOp.putText s _ _ => some s
    | _ => Option.none

/-- The performance_metrics dictionary of AdvancedTracker: three sample
lists; timing samples are modelled as exact rationals. -/
structure PerformanceMetrics where
  fps : List ℚ
  detectionTime : List ℚ
  frameProcessingTime : List ℚ
deriving Repr, DecidableEq

/-- The mutable state of AdvancedTracker: the three inherited
statistics attributes, the detection history list (frame number with
the car and pedestrian boxes recorded for it), and the performance
metrics. -/
structure AdvTrackerState where
  frameCount : Nat
  totalCars : Nat
  totalPeds : Nat
  detectionHistory : List (Nat × List Box × List Box)
  metrics : PerformanceMetrics
deriving Repr

/-- The reset branch of process_video_with_advanced_features (key r or
R): zeroes frame_count and both totals, clears the detection history,
and replaces performance_metrics by fresh empty lists — all within one
sequential key-handling step, with no frame processed in between. -/
def resetAdvanced (_ : AdvTrackerState) : AdvTrackerState :=
  ⟨0, 0, 0, [], ⟨[], [], []⟩⟩

/-- The rolling detection-time average of add_performance_overlay:
np.mean over the last 10 samples, computed only when at least one
sample exists, otherwise reported unavailable (the source prints the
placeholder text instead). -/
def rollingAverage (samples : List ℚ) : Option ℚ :=
  if samples.length > 0 then
    some ((samples.drop (samples.length - 10)).sum / ((min samples.length 10 : Nat) : ℚ))
  else
    Option.none

/-- An immediate read of every statistic an observer can see: the three
counters and the rolling timing average (none when unavailable). -/
def advSnapshot (s : AdvTrackerState) : Nat × Nat × Nat × Option ℚ :=
  (s.frameCount, s.totalCars, s.totalPeds, rollingAverage s.metrics.detectionTime)

/-- The Python str.isdigit test performed on the video source argument:
true exactly for a nonempty string all of whose characters are digits. -/
def pyIsdigit (s : String) : Bool :=
  !s.toList.isEmpty && s.toList.all Char.isDigit

/-- The Python int() conversion applied to a digit string: its decimal
value. -/
def pyInt (s : String) : Nat :=
  s.toList.foldl (fun n c => 10 * n + (c.toNat - 48)) 0

/-- What cv2.VideoCapture is opened on: a camera index or a file path. -/
inductive VideoSource
  | camera (idx : Nat)
  | file (path : String)
deriving Repr, DecidableEq

/-- The source-resolution step at the top of process_video: a string
that satisfies isdigit is converted with int() and opened as a camera
index; any other string is opened as a file path. -/
def resolveVideoSource (s : String) : VideoSource :=
  if pyIsdigit s then .camera (pyInt s) else .file s

/-- Shorthand for the comparison the source makes against the running
minimum distance: below the bound when finite, false at infinity. -/
def optLt (o : Option Int) (b : Int) : Prop :=
  match o with
  | Option.none => False
  | some m => m < b

/-- Whether any frame tick of a trace carries a reset key; the
screenshot-name uniqueness of the loop holds exactly on traces without
one. -/
def containsReset : List TickInput → Bool
  | [] => false
  | .frame _ _ raw :: rest =>
    (decide (keyAction (raw % 256) = .reset)) || containsReset rest
  | _ :: rest => containsReset rest

/-- The screenshot artifact name built by the s/S key branch of
process_video from the current frame_count. -/
def screenshotName (n : Nat) : String :=
  "screenshot_frame_" ++ toString n ++ ".jpg"

/-- Claim C2: on every exit path of the processing loop — clean end of
stream, user quit, external interrupt, and an error raised mid-loop, all
of which are covered by quantifying over every input trace — the capture
is released exactly once, the writer is released exactly once when one
was opened, and the display windows are destroyed exactly once. -/
theorem resources_released_exactly_once (s0 : Stats) (hasWriter : Bool)
    (trace : List TickInput) :
    (processVideo s0 true hasWriter trace).capReleases = 1 ∧
    (processVideo s0 true hasWriter trace).writerReleases = (if hasWriter then 1 else 0) ∧
    (processVideo s0 true hasWriter trace).windowsDestroyed = 1 := by
  simp [processVideo]

/-- Claim C3, counterexample: with both cascades loading fine and the
video source failing to open, main falls through to exit code 0 — the
claim requires a non-zero exit on SourceUnavailable, but process_video
merely logs and returns. -/
theorem source_unavailable_exits_zero :
    mainExit .ok .ok false true [] = 0 ∧
    (processVideo ⟨0, 0, 0⟩ false true []).outcome = .sourceUnavailable := by
  exact ⟨rfl, rfl⟩

/-- Claim C3, amended: the process exits 0 on normal completion, user
quit, interrupt, AND on an unavailable video source (which still fails
fast: the loop is never entered and no frame is processed); it exits 1
exactly when a cascade file is missing or fails to load, or when an
error escapes the processing loop. -/
theorem exit_code_characterization :
    (∀ (carLoad pedLoad : LoadResult) (sourceOpens hasWriter : Bool)
        (trace : List TickInput),
        (carLoad ≠ LoadResult.ok ∨ pedLoad ≠ LoadResult.ok) →
        mainExit carLoad pedLoad sourceOpens hasWriter trace = 1) ∧
    (∀ (hasWriter : Bool) (trace : List TickInput),
        mainExit .ok .ok false hasWriter trace = 0 ∧
        (processVideo ⟨0, 0, 0⟩ false hasWriter trace).loopEntered = false ∧
        (processVideo ⟨0, 0, 0⟩ false hasWriter trace).stats.frameCount = 0) ∧
    (∀ (hasWriter : Bool) (trace : List TickInput),
        mainExit .ok .ok true hasWriter trace =
          if (loopRun ⟨0, 0, 0⟩ trace).outcome = .errored then 1 else 0) := by
  refine ⟨?_, ?_, ?_⟩
  · intro carLoad pedLoad sourceOpens hasWriter trace h
    match carLoad, pedLoad with
    | .ok, .ok => simp at h
    | .ok, .fileMissing => rfl
    | .ok, .loadFailed => rfl
    | .fileMissing, _ => rfl
    | .loadFailed, _ => rfl
  · intro hasWriter trace
    exact ⟨rfl, rfl, rfl⟩
  · intro hasWriter trace
    simp [mainExit, processVideo]

/-- Witness for the amended C3 theorem at concrete inputs: a missing
cascade exits 1, an unavailable source exits 0, a quit run exits 0, and
a run hit by a mid-loop error exits 1. -/
theorem exit_code_characterization_witness :
    mainExit .fileMissing .ok true true [] = 1 ∧
    mainExit .ok .ok false true [] = 0 ∧
    mainExit .ok .ok true true [.frame 2 3 113] = 0 ∧
    mainExit .ok .ok true true [.bodyError] = 1 :=
  ⟨exit_code_characterization.1 .fileMissing .ok true true [] (Or.inl (by decide)),
   (exit_code_characterization.2.1 true []).1,
   (exit_code_characterization.2.2 true [.frame 2 3 113]).trans (by decide),
   (exit_code_characterization.2.2 true [.bodyError]).trans (by decide)⟩

/-- Claim C4, counterexample: a mid-stream read failure surfaces from
cap.read() as the same ret = False as a clean end of stream; the run it
produces is literally identical to the clean end-of-stream run — the
normal draining path, with no error surfaced — refuting the claim that
a non-EOS read failure terminates the pipeline with the error surfaced
rather than being treated as a normal end of the stream. -/
theorem read_failure_identical_to_eos :
    processVideo ⟨0, 0, 0⟩ true false [.readFalse .midFailure] =
      processVideo ⟨0, 0, 0⟩ true false [.readFalse .fileEnd] ∧
    (processVideo ⟨0, 0, 0⟩ true false [.readFalse .midFailure]).outcome = .endOfStream ∧
    (processVideo ⟨0, 0, 0⟩ true false [.readFalse .midFailure]).outcome ≠ .errored := by
  refine ⟨rfl, rfl, by decide⟩

/-- Claim C4, amended: the loop cannot observe why a read returned
ret = False, and takes the identical normal end-of-stream path for a
clean end of stream and for a mid-stream read failure; only an
exception raised inside the loop body terminates the run with the error
surfaced. -/
theorem read_false_takes_eos_path (s : Stats) (cause : ReadCause)
    (rest : List TickInput) :
    loopRun s (.readFalse cause :: rest) = ⟨s, .endOfStream, [], 0, 0⟩ ∧
    loopRun s (.readFalse .fileEnd :: rest) = loopRun s (.readFalse .midFailure :: rest) ∧
    (loopRun s (.bodyError :: rest)).outcome = .errored := by
  exact ⟨rfl, rfl, rfl⟩

/-- Claim C9: the key codes of k, K, q and Q all map to the quit action
(case-insensitively), and any two quit-mapped key codes produce the
identical transition out of the running loop — the very same result,
whatever would have followed — with outcome quit. -/
theorem quit_aliases_identical :
    keyAction 107 = .quit ∧ keyAction 75 = .quit ∧
    keyAction 113 = .quit ∧ keyAction 81 = .quit ∧
    (∀ (s : Stats) (cars peds k1 k2 : Nat) (rest1 rest2 : List TickInput),
        keyAction (k1 % 256) = .quit → keyAction (k2 % 256) = .quit →
        loopRun s (.frame cars peds k1 :: rest1) = loopRun s (.frame cars peds k2 :: rest2) ∧
        (loopRun s (.frame cars peds k1 :: rest1)).outcome = .quit) := by
  refine ⟨by decide, by decide, by decide, by decide, ?_⟩
  intro s cars peds k1 k2 rest1 rest2 h1 h2
  have e1 : loopRun s (.frame cars peds k1 :: rest1) =
      ⟨tickStats s cars peds, .quit, [], 1, 1⟩ := by
    simp only [loopRun, h1]
  have e2 : loopRun s (.frame cars peds k2 :: rest2) =
      ⟨tickStats s cars peds, .quit, [], 1, 1⟩ := by
    simp only [loopRun, h2]
  exact ⟨e1.trans e2.symm, by rw [e1]⟩

/-- Witness for the C9 theorem: the aliases k (107) and Q (81) yield
the same quit transition from a concrete state. -/
theorem quit_aliases_identical_witness :
    loopRun ⟨0, 0, 0⟩ [.frame 1 2 107] = loopRun ⟨0, 0, 0⟩ [.frame 1 2 81] ∧
    (loopRun ⟨0, 0, 0⟩ [.frame 1 2 107]).outcome = .quit :=
  quit_aliases_identical.2.2.2.2 ⟨0, 0, 0⟩ 1 2 107 81 [] [] (by decide) (by decide)

/-- Claim C5: resetting the statistics and immediately reading them
yields frame_count 0, both per-class totals 0, an empty detection
history, empty timing buffers, and an unavailable rolling average; the
reset is a single sequential step of the key handler, so no observation
point can see a half-finished reset.  The second conjunct shows the
base-tracker loop right after a reset tick (key code 114, the r key)
holding all-zero statistics. -/
theorem reset_zeroes_all_statistics :
    (∀ s : AdvTrackerState,
        advSnapshot (resetAdvanced s) = (0, 0, 0, Option.none) ∧
        (resetAdvanced s).detectionHistory = [] ∧
        (resetAdvanced s).metrics.fps = [] ∧
        (resetAdvanced s).metrics.detectionTime = [] ∧
        (resetAdvanced s).metrics.frameProcessingTime = []) ∧
    (∀ (s : Stats) (cars peds : Nat),
        (loopRun s [.frame cars peds 114]).stats = ⟨0, 0, 0⟩) := by
  refine ⟨fun s => ⟨rfl, rfl, rfl, rfl, rfl⟩, fun s cars peds => rfl⟩

/-- Claim C10: a video source string that is nonempty and consists
entirely of decimal digits is converted with int() and opened as a
camera index, never as a file path. -/
theorem digit_source_opens_camera (s : String)
    (hne : s.toList ≠ []) (hdig : ∀ c ∈ s.toList, c.isDigit) :
    resolveVideoSource s = .camera (pyInt s) ∧
    ∀ p, resolveVideoSource s ≠ .file p := by
  have h : pyIsdigit s = true := by
    simp only [pyIsdigit, Bool.and_eq_true, Bool.not_eq_eq_eq_not, Bool.not_true,
      List.all_eq_true]
    constructor
    · cases he : s.toList with
      | nil => exact absurd he hne
      | cons a l => rfl
    · exact hdig
  refine ⟨by simp [resolveVideoSource, h], ?_⟩
  intro p hcontra
  simp [resolveVideoSource, h] at hcontra

/-- Witness for the C10 theorem: the all-digit sources 123 and 0 are
opened as camera indices 123 and 0. -/
theorem digit_source_opens_camera_witness :
    resolveVideoSource "123" = .camera 123 ∧ resolveVideoSource "0" = .camera 0 :=
  ⟨((digit_source_opens_camera "123" (by decide) (by decide)).1).trans (by decide),
   ((digit_source_opens_camera "0" (by decide) (by decide)).1).trans (by decide)⟩

lemma minStep_lt (x y : Int) (acc : Option Int) (pb : Box) :
    optLt (minStep x y acc pb) 10000 ↔
      optLt acc 10000 ∨ cornerSqDist x y pb.1 pb.2.1 < 10000 := by
  cases acc with
  | none => simp [minStep, optLt]
  | some m =>
    by_cases h : cornerSqDist x y pb.1 pb.2.1 < m
    · simp only [minStep, optLt, if_pos h]
      omega
    · simp only [minStep, optLt, if_neg h]
      omega

lemma foldl_minStep_lt (x y : Int) (l : List Box) :
    ∀ acc : Option Int,
      optLt (l.foldl (minStep x y) acc) 10000 ↔
        optLt acc 10000 ∨ ∃ pb ∈ l, cornerSqDist x y pb.1 pb.2.1 < 10000 := by
  induction l with
  | nil => intro acc; simp
  | cons hd tl ih =>
    intro acc
    rw [List.foldl_cons, ih, minStep_lt]
    simp only [List.mem_cons]
    constructor
    · rintro ((h | h) | ⟨pb, hpb, hlt⟩)
      · exact Or.inl h
      · exact Or.inr ⟨hd, Or.inl rfl, h⟩
      · exact Or.inr ⟨pb, Or.inr hpb, hlt⟩
    · rintro (h | ⟨pb, (rfl | hpb), hlt⟩)
      · exact Or.inl (Or.inl h)
      · exact Or.inl (Or.inr hlt)
      · exact Or.inr ⟨pb, hpb, hlt⟩

lemma movingIndicator_iff (x y : Int) (prevCars : List Box) :
    movingIndicator x y prevCars = true ↔
      ∃ pb ∈ prevCars, cornerSqDist x y pb.1 pb.2.1 < 10000 := by
  have hopt : optLt (minSqDist x y prevCars) 10000 ↔
      ∃ pb ∈ prevCars, cornerSqDist x y pb.1 pb.2.1 < 10000 := by
    rw [minSqDist, foldl_minStep_lt x y prevCars Option.none]
    simp [optLt]
  rw [← hopt]
  unfold movingIndicator
  cases h : minSqDist x y prevCars with
  | none => simp [optLt, h]
  | some m => simp [optLt, h]

/-- Claim C1, counterexample: the code measures the distance between
the TOP-LEFT CORNERS of the boxes, not between their centroids, and it
neither reuses a track id nor appends to any centroid history (no track
ids exist in the source at all — a match only draws a Moving label).
Concretely, for the current car box (0, 0, 10, 10) against the previous
car box (0, 0, 300, 300), the corner distance is 0, so the code treats
the detection as continuing (Moving label drawn), while the distance
between the centroids (5, 5) and (150, 150) is about 205 > 100, so the
criterion stated by the claim allocates a fresh track. -/
theorem association_not_by_centroids :
    movingIndicator 0 0 [(0, 0, 300, 300)] = true ∧
    claimedCentroidMatch (0, 0, 10, 10) [(0, 0, 300, 300)] = false := by
  constructor <;> decide

/-- Claim C1, amended: for every current-tick Car detection the code
computes the Euclidean distance from the detection top-left corner
(x, y) to the top-left corner of every previous-tick Car detection and
takes the minimum; the Moving indicator is drawn exactly when some
previous corner lies within the hardcoded distance 100 (squared
distance below 10000).  No track ids are allocated or reused and no
centroid history is appended; pedestrians are not associated.  With
equal box sizes the corner distance equals the centroid distance, so a
previous box at (100, 100) with the current box at (105, 102) matches,
while a current box at (500, 500) does not, and the drawn Moving label
lands in the composed drawing sequence. -/
theorem association_by_corner_distance :
    (∀ (x y : Int) (prevCars : List Box),
        movingIndicator x y prevCars = true ↔
          ∃ pb ∈ prevCars, cornerSqDist x y pb.1 pb.2.1 < 10000) ∧
    movingIndicator 105 102 [(100, 100, 40, 40)] = true ∧
    movingIndicator 500 500 [(100, 100, 40, 40)] = false ∧
    (∀ (cars peds pc : List Box) (x y w h : Int),
        (x, y, w, h) ∈ cars → movingIndicator x y pc = true →
        DrawOp.text ("Moving") x (y - 30) (0, 255, 0) ∈
          drawDetectionsWithTracking cars peds (some pc)) := by
  refine ⟨movingIndicator_iff, by decide, by decide, ?_⟩
  intro cars peds pc x y w h hmem hmov
  unfold drawDetectionsWithTracking
  refine List.mem_append.2 (Or.inr ?_)
  refine List.mem_flatMap.2 ⟨(x, y, w, h), hmem, ?_⟩
  simp [hmov]

/-- Witness for the amended C1 theorem: a concrete current car box at
(105, 102) against the previous box at (100, 100) (equal sizes) draws
the Moving label into the tracking draw sequence. -/
theorem association_by_corner_distance_witness :
    DrawOp.text ("Moving") 105 (102 - 30) (0, 255, 0) ∈
      drawDetectionsWithTracking [(105, 102, 40, 40)] [] (some [(100, 100, 40, 40)]) :=
  association_by_corner_distance.2.2.2 [(105, 102, 40, 40)] [] [(100, 100, 40, 40)]
    105 102 40 40 (by decide) (by decide)

lemma screenshots_increasing (trace : List TickInput) :
    ∀ s : Stats, containsReset trace = false →
      (loopRun s trace).screenshots.Pairwise (· < ·) ∧
      ∀ n ∈ (loopRun s trace).screenshots, s.frameCount < n := by
  induction trace with
  | nil => intro s _; simp [loopRun]
  | cons hd tl ih =>
    intro s h
    cases hd with
    | readFalse c => simp [loopRun]
    | interrupt => simp [loopRun]
    | bodyError => simp [loopRun]
    | frame cars peds raw =>
      have hres : keyAction (raw % 256) ≠ .reset := by
        simp only [containsReset, Bool.or_eq_false_iff, decide_eq_false_iff_not] at h
        exact h.1
      have htl : containsReset tl = false := by
        simp only [containsReset, Bool.or_eq_false_iff] at h
        exact h.2
      have hih := ih (tickStats s cars peds) htl
      cases hk : keyAction (raw % 256) with
      | quit => simp [loopRun, hk]
      | reset => exact absurd hk hres
      | screenshot =>
        have hgoal : (loopRun s (.frame cars peds raw :: tl)).screenshots =
            (tickStats s cars peds).frameCount ::
              (loopRun (tickStats s cars peds) tl).screenshots := by
          simp only [loopRun, hk]
        rw [hgoal]
        constructor
        · exact List.Pairwise.cons (fun n hn => hih.2 n hn) hih.1
        · intro n hn
          rcases List.mem_cons.1 hn with rfl | hn2
          · show s.frameCount < (tickStats s cars peds).frameCount
            simp [tickStats]
          · have := hih.2 n hn2
            simp only [tickStats] at this
            omega
      | none =>
        have hgoal : (loopRun s (.frame cars peds raw :: tl)).screenshots =
            (loopRun (tickStats s cars peds) tl).screenshots := by
          simp only [loopRun, hk]
        rw [hgoal]
        refine ⟨hih.1, fun n hn => ?_⟩
        have := hih.2 n hn
        simp only [tickStats] at this
        omega

/-- Claim C7, counterexample: screenshot names are NOT unique across a
run.  In the concrete run take-screenshot (s), reset (r), then
take-screenshot again (s), the frame counter restarts after the reset,
so both screenshots are stamped with frame number 1 and are written to
the very same artifact name. -/
theorem screenshot_names_can_collide :
    (loopRun ⟨0, 0, 0⟩ [.frame 0 0 115, .frame 0 0 114, .frame 0 0 115]).screenshots
      = [1, 1] ∧
    ((loopRun ⟨0, 0, 0⟩ [.frame 0 0 115, .frame 0 0 114, .frame 0 0 115]).screenshots.map
        screenshotName)
      = [screenshotName 1, screenshotName 1] ∧
    ¬ (loopRun ⟨0, 0, 0⟩
        [.frame 0 0 115, .frame 0 0 114, .frame 0 0 115]).screenshots.Nodup := by
  refine ⟨by decide, by decide, by decide⟩

/-- Claim C7, amended: every SaveScreenshot action writes the current
annotated frame under a name derived deterministically from the current
frame sequence number, and changes nothing else — a screenshot tick
yields exactly the statistics, outcome and remaining screenshots of the
same tick with an actionless key, plus the one recorded artifact.  The
frame numbers stamped into the names are strictly increasing, hence
pairwise distinct, across any run in which no ResetStatistics action
occurs; after a reset the counter restarts and names may repeat. -/
theorem screenshot_determinism_and_uniqueness :
    (∀ (s : Stats) (trace : List TickInput), containsReset trace = false →
        (loopRun s trace).screenshots.Pairwise (· < ·) ∧
        (loopRun s trace).screenshots.Nodup) ∧
    (∀ (s : Stats) (cars peds : Nat) (rest : List TickInput),
        (loopRun s (.frame cars peds 115 :: rest)).stats =
          (loopRun s (.frame cars peds 0 :: rest)).stats ∧
        (loopRun s (.frame cars peds 115 :: rest)).outcome =
          (loopRun s (.frame cars peds 0 :: rest)).outcome ∧
        (loopRun s (.frame cars peds 115 :: rest)).screenshots =
          (tickStats s cars peds).frameCount ::
            (loopRun s (.frame cars peds 0 :: rest)).screenshots) := by
  constructor
  · intro s trace h
    have hp := (screenshots_increasing trace s h).1
    exact ⟨hp, hp.imp (fun hlt => Nat.ne_of_lt hlt)⟩
  · intro s cars peds rest
    have h115 : keyAction (115 % 256) = .screenshot := by decide
    have h0 : keyAction (0 % 256) = .none := by decide
    have e1 : loopRun s (.frame cars peds 115 :: rest) =
        ⟨(loopRun (tickStats s cars peds) rest).stats,
         (loopRun (tickStats s cars peds) rest).outcome,
         (tickStats s cars peds).frameCount ::
           (loopRun (tickStats s cars peds) rest).screenshots,
         (loopRun (tickStats s cars peds) rest).framesWritten + 1,
         (loopRun (tickStats s cars peds) rest).framesProcessed + 1⟩ := by
      simp only [loopRun, h115]
    have e2 : loopRun s (.frame cars peds 0 :: rest) =
        ⟨(loopRun (tickStats s cars peds) rest).stats,
         (loopRun (tickStats s cars peds) rest).outcome,
         (loopRun (tickStats s cars peds) rest).screenshots,
         (loopRun (tickStats s cars peds) rest).framesWritten + 1,
         (loopRun (tickStats s cars peds) rest).framesProcessed + 1⟩ := by
      simp only [loopRun, h0]
    rw [e1, e2]
    exact ⟨rfl, rfl, rfl⟩

/-- Witness for the amended C7 theorem: in a reset-free run with two
screenshots and a quit, the recorded frame numbers are strictly
increasing and duplicate-free. -/
theorem screenshot_determinism_and_uniqueness_witness :
    (loopRun ⟨0, 0, 0⟩
      [.frame 0 0 115, .frame 0 0 83, .frame 0 0 113]).screenshots.Nodup :=
  (screenshot_determinism_and_uniqueness.1 ⟨0, 0, 0⟩
    [.frame 0 0 115, .frame 0 0 83, .frame 0 0 113] (by decide)).2

lemma flatMap_sublist_of_mem {α β : Type} (f : α → List β) {l : List α} {a : α}
    (h : a ∈ l) : List.Sublist (f a) (l.flatMap f) := by
  induction l with
  | nil => cases h
  | cons hd tl ih =>
    rw [List.flatMap_cons]
    rcases List.mem_cons.1 h with rfl | h2
    · exact List.sublist_append_left (f a) (tl.flatMap f)
    · exact (ih h2).trans (List.sublist_append_right (f hd) (tl.flatMap f))

/-- Claim C8: for every Car detection the shadow rectangle — the
rectangle with its first corner offset by one unit, drawn in the
car_shadow color — appears strictly before the primary car-colored
rectangle in the draw sequence, and every drawing call in the
car_shadow color originates from a Car detection, so pedestrian
detections get no shadow rectangle. -/
theorem car_shadow_drawn_before_main (cars peds : List Box) :
    (∀ b ∈ cars,
        List.Sublist [shadowOp b, mainCarOp b] (drawDetections cars peds) ∧
        shadowOp b = DrawOp.rect (b.1 + 1) (b.2.1 + 1) (b.1 + b.2.2.1)
          (b.2.1 + b.2.2.2) carShadowColor 2) ∧
    (∀ op ∈ drawDetections cars peds, op.color = carShadowColor →
        ∃ b ∈ cars, op = shadowOp b) := by
  constructor
  · intro b hb
    constructor
    · have h1 : List.Sublist [shadowOp b, mainCarOp b] (drawCarOps b) := by
        rw [show drawCarOps b = [shadowOp b, mainCarOp b] ++ [carLabelOp b] from rfl]
        exact List.sublist_append_left _ _
      refine h1.trans ((flatMap_sublist_of_mem drawCarOps hb).trans ?_)
      exact List.sublist_append_left _ _
    · rcases b with ⟨x, y, w, h⟩
      rfl
  · intro op hop hcol
    rcases List.mem_append.1 hop with hcar | hped
    · rcases List.mem_flatMap.1 hcar with ⟨b, hb, hin⟩
      rcases b with ⟨x, y, w, h⟩
      simp only [drawCarOps, List.mem_cons, List.not_mem_nil, or_false] at hin
      rcases hin with rfl | rfl | rfl
      · exact ⟨(x, y, w, h), hb, rfl⟩
      · simp [mainCarOp, DrawOp.color, carColor, carShadowColor] at hcol
      · simp [carLabelOp, DrawOp.color, carColor, carShadowColor] at hcol
    · rcases List.mem_flatMap.1 hped with ⟨b, hb, hin⟩
      rcases b with ⟨x, y, w, h⟩
      simp only [drawPedOps, List.mem_cons, List.not_mem_nil, or_false] at hin
      rcases hin with rfl | rfl
      · simp [DrawOp.color, pedColor, carShadowColor] at hcol
      · simp [DrawOp.color, pedColor, carShadowColor] at hcol

/-- Witness for the C8 theorem: for a concrete car box among a car and
a pedestrian detection, the shadow-then-main pair embeds in order into
the draw sequence. -/
theorem car_shadow_drawn_before_main_witness :
    List.Sublist [shadowOp (5, 6, 7, 8), mainCarOp (5, 6, 7, 8)]
      (drawDetections [(5, 6, 7, 8)] [(1, 2, 3, 4)]) :=
  ((car_shadow_drawn_before_main [(5, 6, 7, 8)] [(1, 2, 3, 4)]).1
    (5, 6, 7, 8) (by decide)).1

lemma append_ne_empty (s t : String) (h : s.length ≠ 0) : s ++ t ≠ "" := by
  intro he
  apply h
  have hl : (s ++ t).length = 0 := by rw [he]; rfl
  rw [String.length_append] at hl
  omega

/-- Claim C6, counterexample: the overlay compositor is NOT a pure
function of frame, passed detections, statistics snapshot and config.
Here every one of those claimed inputs agrees between the two calls —
same frame, same frame counter, no detection or snapshot argument even
exists in the source signature — yet the rendered panel content
differs, because add_statistics_overlay re-invokes the externally
loaded detector on the frame to produce its Cars counter; detection is
performed by the compositor itself. -/
theorem overlay_not_pure_in_claimed_arguments :
    panelTexts (addStatisticsOverlay id (fun _ => []) (fun _ => []) 0 5) ≠
      panelTexts (addStatisticsOverlay id (fun _ => [(0, 0, 1, 1)]) (fun _ => []) 0 5) := by
  decide

/-- Claim C6, amended: add_statistics_overlay takes only the frame and
the frame_count attribute; its Cars and Pedestrians counters come from
a fresh detect_objects run on the frame being annotated — not from any
passed detections or statistics snapshot — and the rendered panel is
exactly the frame line, the two fresh-detection counter lines, and the
four control lines.  It is deterministic in the frame, the counter and
the loaded detectors, so two calls agreeing on those render the same
panel. -/
theorem overlay_counts_from_fresh_detection (toGray : Frame → Frame)
    (carDet pedDet : Frame → List Box) (frame : Frame) (frameCount : Nat) :
    panelTexts (addStatisticsOverlay toGray carDet pedDet frame frameCount) =
      ["Frame: " ++ toString frameCount,
       "Cars: " ++ toString (carDet (toGray frame)).length,
       "Pedestrians: " ++ toString (pedDet (toGray frame)).length,
       "Controls:",
       "K/Q - Quit",
       "S - Save screenshot",
       "R - Reset statistics"] := by
  have h1 := append_ne_empty ("Frame: ") (toString frameCount) (by decide)
  have h2 := append_ne_empty ("Cars: ")
    (toString (carDet (toGray frame)).length) (by decide)
  have h3 := append_ne_empty ("Pedestrians: ")
    (toString (pedDet (toGray frame)).length) (by decide)
  simp [addStatisticsOverlay, statsText, detectObjects, drawTextLines, panelTexts,
    h1, h2, h3]

end CarsPeds
